import Mathlib

/-!
Formal model of the coordinate transformation and calibration subsystem of
the Xiaomi cloud map extractor module
`custom_components/xiaomi_cloud_map_extractor/common/map_data.py`.

Python floats are modelled as exact rationals (`ℚ`), Python ints as `ℤ`.
Python `int(...)` (truncation toward zero) is modelled by `pyInt`.
The `Point.rotated` while-loop is modelled by the recursive `rotateLoop`.
`MapData.calibration` returns `Except String ...`: the error case models the
`AttributeError` raised when `self.image` is `None`.
-/

/-- Python `int(x)`: truncation toward zero (floor for nonnegative inputs,
ceiling for negative inputs). -/
def pyInt (q : ℚ) : ℤ := if 0 ≤ q then ⌊q⌋ else ⌈q⌉

/-- `Point`: x, y coordinates plus an optional angle `a` (defaulting to
`None` in the source constructor). -/
structure Point where
  x : ℚ
  y : ℚ
  a : Option ℚ
  deriving DecidableEq

/-- `ImageDimensions`: placement of the trimmed raster plus the injected
model-specific coordinate adapter. -/
structure ImageDimensions where
  top : ℤ
  left : ℤ
  height : ℤ
  width : ℤ
  scale : ℚ
  rotation : ℤ
  img_transformation : Point → Point

/-- `ImageDimensions.to_img`: apply the injected transformation, then map the
point into the trimmed raster, flipping the vertical axis. -/
def ImageDimensions.to_img (d : ImageDimensions) (point : Point) : Point :=
  ⟨((d.img_transformation point).x - (d.left : ℚ)) * d.scale,
   ((d.height : ℚ) - ((d.img_transformation point).y - (d.top : ℚ)) - 1) * d.scale,
   none⟩

/-- `Point.to_img` delegates to `ImageDimensions.to_img`. -/
def Point.to_img (p : Point) (d : ImageDimensions) : Point :=
  d.to_img p

/-- The `while alpha > 0` loop body of `Point.rotated`:
`(x, y, w, h) -> (y, w - x, h, w)`, decrementing `alpha` by 90 each pass,
returning the final `(x, y)`. -/
def rotateLoop (alpha : ℤ) (x y w h : ℚ) : ℚ × ℚ :=
  if 0 < alpha then rotateLoop (alpha - 90) y (w - x) h w
  else (x, y)
termination_by alpha.toNat
decreasing_by
  simp_wf
  omega

/-- `Point.rotated`: apply `dimensions.rotation` as iterated 90° steps over
the scaled image of size `int(width*scale) × int(height*scale)`. -/
def Point.rotated (p : Point) (d : ImageDimensions) : Point :=
  ⟨(rotateLoop d.rotation p.x p.y
      ((pyInt ((d.width : ℚ) * d.scale) : ℤ) : ℚ)
      ((pyInt ((d.height : ℚ) * d.scale) : ℤ) : ℚ)).1,
   (rotateLoop d.rotation p.x p.y
      ((pyInt ((d.width : ℚ) * d.scale) : ℤ) : ℚ)
      ((pyInt ((d.height : ℚ) * d.scale) : ℤ) : ℚ)).2,
   none⟩

/-- One 90° rotation step on the loop state `(x, y, w, h)`:
`(x, y, w, h) -> (y, w - x, h, w)`. -/
def rotStep (s : ℚ × ℚ × ℚ × ℚ) : ℚ × ℚ × ℚ × ℚ :=
  (s.2.1, s.2.2.1 - s.1, s.2.2.2, s.2.2.1)

/-- The trim/scale/rotate configuration record (`image_config` dict in the
source). -/
structure ImageConfig where
  trim_left : ℚ
  trim_right : ℚ
  trim_top : ℚ
  trim_bottom : ℚ
  scale : ℚ
  rotate : ℤ

/-- `ImageData`: derived dimensions, emptiness flag, byte size.  The raster
and the additional layers are irrelevant to the claims and omitted. -/
structure ImageData where
  size : ℤ
  dimensions : ImageDimensions
  is_empty : Bool

/-- `ImageData.__init__`: derive the `ImageDimensions` from raw
`(top, left, height, width)` and the config. -/
def ImageData.make (size top left height width : ℤ) (cfg : ImageConfig)
    (img_transformation : Point → Point) : ImageData :=
  ⟨size,
   ⟨top + pyInt (cfg.trim_bottom * (height : ℚ) / 100),
    left + pyInt (cfg.trim_left * (width : ℚ) / 100),
    height - pyInt (cfg.trim_top * (height : ℚ) / 100)
           - pyInt (cfg.trim_bottom * (height : ℚ) / 100),
    width - pyInt (cfg.trim_left * (width : ℚ) / 100)
          - pyInt (cfg.trim_right * (width : ℚ) / 100),
    cfg.scale, cfg.rotate, img_transformation⟩,
   height == 0 || width == 0⟩

/-- `Room`: rectangle plus optional identity and label fields. -/
structure Room where
  number : ℤ
  x0 : Option ℚ
  y0 : Option ℚ
  x1 : Option ℚ
  y1 : Option ℚ
  name : Option String
  pos_x : Option ℚ
  pos_y : Option ℚ

/-- `Room.point`: returns `Point(pos_x, pos_y)` when `pos_x`, `pos_y` and
`name` are all present, else `None`. -/
def Room.point (r : Room) : Option Point :=
  match r.pos_x, r.pos_y, r.name with
  | some px, some py, some _ => some ⟨px, py, none⟩
  | _, _, _ => none

/-- One calibration correspondence record
`\x7bvacuum: \x7bx, y\x7d, map: \x7bx, y\x7d\x7d`. -/
structure CalibrationPoint where
  vacuum_x : ℚ
  vacuum_y : ℚ
  map_x : ℤ
  map_y : ℤ
  deriving DecidableEq

/-- `MapData`: only the fields read by `calibration()` are modelled; the
constructor default leaves `image` absent (`None`). -/
structure MapData where
  calibration_center : ℚ
  calibration_diff : ℚ
  image : Option ImageData

/-- `MapData.__init__`: stores the two calibration parameters and leaves
`image` at its `None` default. -/
def MapData.init (calibration_center calibration_diff : ℚ) : MapData :=
  ⟨calibration_center, calibration_diff, none⟩

/-- `MapData.calibration`: `error` models the `AttributeError` raised on
`self.image.is_empty` when `image` is `None`; otherwise `ok none` for an
empty image, and `ok (some records)` with the three probe points. -/
def MapData.calibration (m : MapData) :
    Except String (Option (List CalibrationPoint)) :=
  match m.image with
  | none => .error "AttributeError: NoneType object has no attribute is_empty"
  | some image =>
    if image.is_empty then .ok none
    else
      .ok (some (List.map (fun point =>
        ⟨point.x, point.y,
         pyInt ((point.to_img image.dimensions).rotated image.dimensions).x,
         pyInt ((point.to_img image.dimensions).rotated image.dimensions).y⟩)
        [Point.mk m.calibration_center m.calibration_center none,
         Point.mk (m.calibration_center + m.calibration_diff) m.calibration_center none,
         Point.mk m.calibration_center (m.calibration_center + m.calibration_diff) none]))

lemma rotateLoop_nonpos (alpha : ℤ) (x y w h : ℚ) (ha : ¬ 0 < alpha) :
    rotateLoop alpha x y w h = (x, y) := by
  rw [rotateLoop]
  simp [ha]

lemma rotateLoop_pos (alpha : ℤ) (x y w h : ℚ) (ha : 0 < alpha) :
    rotateLoop alpha x y w h = rotateLoop (alpha - 90) y (w - x) h w := by
  rw [rotateLoop]
  simp [ha]

lemma rotateLoop_0 (x y w h : ℚ) : rotateLoop 0 x y w h = (x, y) := by
  rw [rotateLoop_nonpos]
  norm_num

lemma rotateLoop_90 (x y w h : ℚ) : rotateLoop 90 x y w h = (y, w - x) := by
  rw [rotateLoop_pos _ _ _ _ _ (by norm_num)]
  norm_num [rotateLoop_0]

lemma rotateLoop_180 (x y w h : ℚ) :
    rotateLoop 180 x y w h = (w - x, h - y) := by
  rw [rotateLoop_pos _ _ _ _ _ (by norm_num)]
  norm_num [rotateLoop_90]

lemma rotateLoop_270 (x y w h : ℚ) :
    rotateLoop 270 x y w h = (h - y, w - (w - x)) := by
  rw [rotateLoop_pos _ _ _ _ _ (by norm_num)]
  norm_num [rotateLoop_180]

lemma pyInt_of_nonneg (q : ℚ) (h : 0 ≤ q) : pyInt q = ⌊q⌋ :=
  if_pos h

/-- C2: `to_img` maps a point `p` to
`((t.x - left) * scale, (height - (t.y - top) - 1) * scale)` where
`t = img_transformation p`; in particular with identity dimensions
(top = left = 0, scale = 1, rotation = 0, identity transform) of height `h`
it returns `(p.x, h - p.y - 1)`. -/
theorem to_img_spec :
    (∀ (p : Point) (d : ImageDimensions),
      p.to_img d =
        ⟨((d.img_transformation p).x - (d.left : ℚ)) * d.scale,
         ((d.height : ℚ) - ((d.img_transformation p).y - (d.top : ℚ)) - 1) * d.scale,
         none⟩) ∧
    (∀ (p : Point) (h w : ℤ),
      p.to_img ⟨0, 0, h, w, 1, 0, fun q => q⟩ = ⟨p.x, (h : ℚ) - p.y - 1, none⟩) := by
  constructor
  · intro p d
    rfl
  · intro p h w
    simp only [Point.to_img, ImageDimensions.to_img, Point.mk.injEq]
    refine ⟨by push_cast; ring, by push_cast; ring, trivial⟩

/-- C6: `is_empty` is true iff the raw `height` or `width` was 0,
independently of the trim/scale/rotate configuration. -/
theorem is_empty_iff_raw_zero (size top left height width : ℤ)
    (cfg : ImageConfig) (tf : Point → Point) :
    (ImageData.make size top left height width cfg tf).is_empty = true ↔
      height = 0 ∨ width = 0 := by
  simp [ImageData.make]

/-- C7: `rotated` with rotation 0 is the identity on `(x, y)`. -/
theorem rotated_zero_identity (p : Point) (d : ImageDimensions)
    (h : d.rotation = 0) :
    (p.rotated d).x = p.x ∧ (p.rotated d).y = p.y := by
  simp [Point.rotated, h, rotateLoop_0]

/-- C7 witness: concrete evaluation at `p = (4, 7, a = 1)` with a
rotation-0 dimensions record. -/
theorem rotated_zero_identity_witness :
    ((Point.mk 4 7 (some 1)).rotated ⟨0, 0, 9, 9, 1, 0, fun q => q⟩).x = 4 ∧
    ((Point.mk 4 7 (some 1)).rotated ⟨0, 0, 9, 9, 1, 0, fun q => q⟩).y = 7 :=
  rotated_zero_identity (Point.mk 4 7 (some 1)) ⟨0, 0, 9, 9, 1, 0, fun q => q⟩ rfl

/-- C9: both `to_img` and `rotated` return a point whose angle field is
`none`, even when the input point carries an angle. -/
theorem transforms_discard_angle (p : Point) (d : ImageDimensions) :
    (p.to_img d).a = none ∧ (p.rotated d).a = none :=
  ⟨rfl, rfl⟩

/-- C10: a default-constructed `MapData` has no image, and `calibration()`
on it fails (modelling the `AttributeError` on `self.image.is_empty`) rather
than returning the documented `None`; the `None` result (`ok none`) occurs
exactly when an owned `ImageData` exists and its `is_empty` flag is true. -/
theorem calibration_missing_image :
    (∀ cc cd : ℚ,
      (MapData.init cc cd).image = none ∧
      (MapData.init cc cd).calibration =
        .error "AttributeError: NoneType object has no attribute is_empty") ∧
    (∀ m : MapData,
      m.calibration = .ok none ↔
        ∃ img, m.image = some img ∧ img.is_empty = true) := by
  constructor
  · intro cc cd
    exact ⟨rfl, rfl⟩
  · intro m
    obtain ⟨cc, cd, img⟩ := m
    cases img with
    | none => simp [MapData.calibration]
    | some i =>
      cases hie : i.is_empty with
      | false => simp [MapData.calibration, hie]
      | true => simp [MapData.calibration, hie]

/-- C3: for rotation in 0/90/180/270, `rotated` equals iterating the step
`(x, y, w, h) -> (y, w - x, h, w)` exactly `rotation / 90` times, starting
from `(p.x, p.y, int(width*scale), int(height*scale))`, keeping the final
`(x, y)` and discarding `w, h`. -/
theorem rotated_iterate_spec (p : Point) (d : ImageDimensions)
    (hrot : d.rotation = 0 ∨ d.rotation = 90 ∨ d.rotation = 180 ∨ d.rotation = 270) :
    p.rotated d =
      ⟨(rotStep^[(d.rotation / 90).toNat]
          (p.x, p.y, ((pyInt ((d.width : ℚ) * d.scale) : ℤ) : ℚ),
           ((pyInt ((d.height : ℚ) * d.scale) : ℤ) : ℚ))).1,
       (rotStep^[(d.rotation / 90).toNat]
          (p.x, p.y, ((pyInt ((d.width : ℚ) * d.scale) : ℤ) : ℚ),
           ((pyInt ((d.height : ℚ) * d.scale) : ℤ) : ℚ))).2.1,
       none⟩ := by
  rcases hrot with h | h | h | h <;>
    simp only [Point.rotated, h, rotateLoop_0, rotateLoop_90, rotateLoop_180,
      rotateLoop_270] <;>
    rfl

/-- C3 witness: concrete evaluation at `p = (2, 3)` with width 4, height 5,
scale 1, rotation 270. -/
theorem rotated_iterate_spec_witness :
    (Point.mk 2 3 none).rotated ⟨0, 0, 5, 4, 1, 270, fun q => q⟩ =
      Point.mk 2 2 none := by
  have h := rotated_iterate_spec (Point.mk 2 3 none) ⟨0, 0, 5, 4, 1, 270, fun q => q⟩
    (by norm_num)
  rw [h]
  rw [show (((⟨0, 0, 5, 4, 1, 270, fun q => q⟩ : ImageDimensions).rotation / 90).toNat) = 3
    from by decide]
  norm_num [pyInt, rotStep, Function.iterate_succ_apply, Function.iterate_zero_apply,
    Point.mk.injEq]

/-- C5: with rotation 90 and a square scaled image
(`width*scale == height*scale`), four successive applications of `rotated`
with the same dimensions return a point with the original `(x, y)`. -/
theorem rotated_four_roundtrip (p : Point) (d : ImageDimensions)
    (hrot : d.rotation = 90)
    (hsq : (d.width : ℚ) * d.scale = (d.height : ℚ) * d.scale) :
    ((((p.rotated d).rotated d).rotated d).rotated d).x = p.x ∧
    ((((p.rotated d).rotated d).rotated d).rotated d).y = p.y := by
  simp only [Point.rotated, hrot, rotateLoop_90]
  constructor <;> ring

/-- C5 witness: concrete evaluation at `p = (3, 5)` with a 10x10 image,
scale 1, rotation 90. -/
theorem rotated_four_roundtrip_witness :
    (((((Point.mk 3 5 none).rotated ⟨0, 0, 10, 10, 1, 90, fun q => q⟩).rotated
        ⟨0, 0, 10, 10, 1, 90, fun q => q⟩).rotated
        ⟨0, 0, 10, 10, 1, 90, fun q => q⟩).rotated
        ⟨0, 0, 10, 10, 1, 90, fun q => q⟩).x = 3 ∧
    (((((Point.mk 3 5 none).rotated ⟨0, 0, 10, 10, 1, 90, fun q => q⟩).rotated
        ⟨0, 0, 10, 10, 1, 90, fun q => q⟩).rotated
        ⟨0, 0, 10, 10, 1, 90, fun q => q⟩).rotated
        ⟨0, 0, 10, 10, 1, 90, fun q => q⟩).y = 5 :=
  rotated_four_roundtrip (Point.mk 3 5 none) ⟨0, 0, 10, 10, 1, 90, fun q => q⟩
    rfl rfl

/-- C4: with trim percentages in `[0, 100]` and nonnegative raw raster
dimensions, the derived `ImageDimensions` has
`top = top + floor(height * trim.bottom / 100)` (bottom trim added to the
top offset), `left = left + floor(width * trim.left / 100)`,
`height = height - floor(height * trim.top / 100) - floor(height * trim.bottom / 100)`,
`width = width - floor(width * trim.left / 100) - floor(width * trim.right / 100)`,
`scale = config.scale`, `rotation = config.rotate`. -/
theorem image_dimensions_spec (size top left height width : ℤ)
    (cfg : ImageConfig) (tf : Point → Point)
    (h0l : 0 ≤ cfg.trim_left) (h1l : cfg.trim_left ≤ 100)
    (h0r : 0 ≤ cfg.trim_right) (h1r : cfg.trim_right ≤ 100)
    (h0t : 0 ≤ cfg.trim_top) (h1t : cfg.trim_top ≤ 100)
    (h0b : 0 ≤ cfg.trim_bottom) (h1b : cfg.trim_bottom ≤ 100)
    (hh : 0 ≤ height) (hw : 0 ≤ width) :
    (ImageData.make size top left height width cfg tf).dimensions.top =
        top + ⌊(height : ℚ) * cfg.trim_bottom / 100⌋ ∧
    (ImageData.make size top left height width cfg tf).dimensions.left =
        left + ⌊(width : ℚ) * cfg.trim_left / 100⌋ ∧
    (ImageData.make size top left height width cfg tf).dimensions.height =
        height - ⌊(height : ℚ) * cfg.trim_top / 100⌋
               - ⌊(height : ℚ) * cfg.trim_bottom / 100⌋ ∧
    (ImageData.make size top left height width cfg tf).dimensions.width =
        width - ⌊(width : ℚ) * cfg.trim_left / 100⌋
              - ⌊(width : ℚ) * cfg.trim_right / 100⌋ ∧
    (ImageData.make size top left height width cfg tf).dimensions.scale =
        cfg.scale ∧
    (ImageData.make size top left height width cfg tf).dimensions.rotation =
        cfg.rotate := by
  have key : ∀ a : ℚ, ∀ b : ℤ, 0 ≤ a → 0 ≤ b →
      pyInt (a * (b : ℚ) / 100) = ⌊(b : ℚ) * a / 100⌋ := by
    intro a b ha hb
    rw [pyInt, if_pos (div_nonneg (mul_nonneg ha (by exact_mod_cast hb)) (by norm_num)),
      mul_comm]
  refine ⟨?_, ?_, ?_, ?_, rfl, rfl⟩ <;>
    simp only [ImageData.make, key _ _ h0b hh, key _ _ h0l hw, key _ _ h0t hh,
      key _ _ h0r hw]

/-- C4 witness: concrete evaluation with raw size 200x100, offsets (5, 7),
trims (left 10, right 20, top 30, bottom 5), scale 2, rotation 90. -/
theorem image_dimensions_spec_witness :
    (ImageData.make 0 5 7 200 100 ⟨10, 20, 30, 5, 2, 90⟩ (fun q => q)).dimensions.top = 15 ∧
    (ImageData.make 0 5 7 200 100 ⟨10, 20, 30, 5, 2, 90⟩ (fun q => q)).dimensions.left = 17 ∧
    (ImageData.make 0 5 7 200 100 ⟨10, 20, 30, 5, 2, 90⟩ (fun q => q)).dimensions.height = 130 ∧
    (ImageData.make 0 5 7 200 100 ⟨10, 20, 30, 5, 2, 90⟩ (fun q => q)).dimensions.width = 70 ∧
    (ImageData.make 0 5 7 200 100 ⟨10, 20, 30, 5, 2, 90⟩ (fun q => q)).dimensions.scale = 2 ∧
    (ImageData.make 0 5 7 200 100 ⟨10, 20, 30, 5, 2, 90⟩ (fun q => q)).dimensions.rotation = 90 := by
  obtain ⟨h1, h2, h3, h4, h5, h6⟩ :=
    image_dimensions_spec 0 5 7 200 100 ⟨10, 20, 30, 5, 2, 90⟩ (fun q => q)
      (by norm_num) (by norm_num) (by norm_num) (by norm_num)
      (by norm_num) (by norm_num) (by norm_num) (by norm_num)
      (by norm_num) (by norm_num)
  exact ⟨h1.trans (by norm_num), h2.trans (by norm_num), h3.trans (by norm_num),
    h4.trans (by norm_num), h5, h6⟩

/-- C8: `Room.point()` returns `Point(pos_x, pos_y)` exactly when `name`,
`pos_x` and `pos_y` are all present; otherwise it returns `none`. -/
theorem room_point_spec (r : Room) :
    (r.point = none ↔ (r.name = none ∨ r.pos_x = none ∨ r.pos_y = none)) ∧
    (∀ px py, r.pos_x = some px → r.pos_y = some py → r.name ≠ none →
      r.point = some (Point.mk px py none)) := by
  obtain ⟨num, rx0, ry0, rx1, ry1, nm, px, py⟩ := r
  constructor
  · cases px <;> cases py <;> cases nm <;> simp [Room.point]
  · intro a b ha hb hn
    cases nm with
    | none => exact absurd rfl hn
    | some s =>
      cases ha
      cases hb
      rfl

/-- C8 witness: a room with name, pos_x and pos_y present yields its
position point. -/
theorem room_point_spec_witness :
    Room.point ⟨1, none, none, none, none, some "kitchen", some 3, some 4⟩ =
      some (Point.mk 3 4 none) :=
  (room_point_spec ⟨1, none, none, none, none, some "kitchen", some 3, some 4⟩).2
    3 4 rfl rfl (by simp)

/-- C1: with an owned image whose `is_empty` flag is false, `calibration()`
returns exactly three records built from the probe points `(c, c)`,
`(c+d, c)`, `(c, c+d)` in that order, each with the original float vacuum
coordinates and the image coordinates `rotated(to_img(probe))` truncated
toward zero; with `is_empty` true it returns `None`. -/
theorem calibration_spec (m : MapData) (img : ImageData)
    (him : m.image = some img) :
    (img.is_empty = true → m.calibration = .ok none) ∧
    (img.is_empty = false → m.calibration = .ok (some
      [⟨m.calibration_center, m.calibration_center,
        pyInt (((Point.mk m.calibration_center m.calibration_center none).to_img
          img.dimensions).rotated img.dimensions).x,
        pyInt (((Point.mk m.calibration_center m.calibration_center none).to_img
          img.dimensions).rotated img.dimensions).y⟩,
       ⟨m.calibration_center + m.calibration_diff, m.calibration_center,
        pyInt (((Point.mk (m.calibration_center + m.calibration_diff)
          m.calibration_center none).to_img img.dimensions).rotated img.dimensions).x,
        pyInt (((Point.mk (m.calibration_center + m.calibration_diff)
          m.calibration_center none).to_img img.dimensions).rotated img.dimensions).y⟩,
       ⟨m.calibration_center, m.calibration_center + m.calibration_diff,
        pyInt (((Point.mk m.calibration_center
          (m.calibration_center + m.calibration_diff) none).to_img
          img.dimensions).rotated img.dimensions).x,
        pyInt (((Point.mk m.calibration_center
          (m.calibration_center + m.calibration_diff) none).to_img
          img.dimensions).rotated img.dimensions).y⟩])) := by
  constructor
  · intro he
    simp [MapData.calibration, him, he]
  · intro he
    simp [MapData.calibration, him, he]

/-- C1 witness: an untrimmed, unscaled, unrotated 10x10 image with
`calibration_center = 0`, `calibration_diff = 100` yields the three records
`(0,0)->(0,9)`, `(100,0)->(100,9)`, `(0,100)->(0,-91)`. -/
theorem calibration_spec_witness :
    (MapData.mk 0 100
        (some (ImageData.make 0 0 0 10 10 ⟨0, 0, 0, 0, 1, 0⟩ (fun q => q)))).calibration =
      .ok (some [⟨0, 0, 0, 9⟩, ⟨100, 0, 100, 9⟩, ⟨0, 100, 0, -91⟩]) := by
  have h := (calibration_spec
    (MapData.mk 0 100
      (some (ImageData.make 0 0 0 10 10 ⟨0, 0, 0, 0, 1, 0⟩ (fun q => q))))
    (ImageData.make 0 0 0 10 10 ⟨0, 0, 0, 0, 1, 0⟩ (fun q => q)) rfl).2 rfl
  rw [h]
  norm_num [ImageData.make, ImageDimensions.to_img, Point.to_img, Point.rotated,
    pyInt, rotateLoop_0, CalibrationPoint.mk.injEq]
  rw [show ((-91 : ℚ)) = ((-91 : ℤ) : ℚ) by norm_num]
  exact Int.ceil_intCast _
